import Mathlib

/-!
Shallow embedding of the dasynq reactor core (src/unnamed/part_000) and of
the pselect backend (src/dasynq-select.h), together with theorems checking
the natural-language specification against the code.

Watchers are identified by natural numbers; a watcher map assigns each
identifier the bookkeeping state that `dprivate::BaseWatcher` and its
subclasses carry.  Calls made by the dispatcher (handler invocations,
`watchRemoved`, backend `_nolock` operations) are recorded in a trace.
-/

namespace Dasynq

/-- Watch type tag, from `dprivate::WatchType` (SIGNAL, FD, CHILD). -/
inductive WatchType where
  | SIGNAL
  | FD
  | CHILD
  deriving DecidableEq

/-- Handler return values, from `enum class Rearm` (REARM, DISARM, REMOVE). -/
inductive Rearm where
  | REARM
  | DISARM
  | REMOVE
  deriving DecidableEq

/-- State of one watcher: the fields of `BaseWatcher` (`watchType`, `active`,
`deleteme`) plus the variant fields used by the dispatcher:
`BaseFdWatcher::watch_fd`, `watch_flags`, `event_flags`,
`BaseSignalWatcher`'s stored signal number, `BaseChildWatcher::watch_pid`.
The intrusive `next` link is represented by the position of the identifier
inside the pending list. -/
structure Watcher where
  watchType : WatchType
  active : Bool
  deleteme : Bool
  watch_fd : Nat
  watch_flags : Nat
  event_flags : Nat
  signo : Nat
  watch_pid : Nat
  deriving DecidableEq

/-- A watcher map: watcher state per identifier. -/
abbrev WMap := Nat → Watcher

/-- Update one watcher in a watcher map. -/
def wupdate (ws : WMap) (i : Nat) (w : Watcher) : WMap :=
  fun j => if j = i then w else ws j

/-- Observable calls made by the dispatcher and the reactor:
`watchRemoved`, the (single) handler invocation of a watcher
(`gotSignal` / `gotEvent` / `gotTermStat`), and the backend `_nolock`
operations used by `processSignalRearm` / `processFdRearm`. -/
inductive Call where
  | watchRemoved (w : Nat)
  | handler (w : Nat)
  | enableFdWatch (fd : Nat) (w : Nat) (flags : Nat)
  | removeFdWatch (fd : Nat)
  | rearmSignalWatch (signo : Nat)
  | removeSignalWatch (signo : Nat)
  deriving DecidableEq

/-- Environment for one dispatch pass: `hres q` is the `Rearm` value the
handler of watcher `q` returns (ignored for child watchers), and
`delDuring q` records whether another thread runs `issueDelete q` while the
handler of `q` executes (possible because the dispatch lock is released
around the handler call; `issueDelete` then finds `active` set and raises
`deleteme`). -/
structure DispatchEnv where
  hres : Nat → Rearm
  delDuring : Nat → Bool

/-- Result of the first (locked) phase of `EventLoop::processEvents`
(part_000 lines 523-544): the updated watcher map, the value of the local
`pqueue` after the traversal (the retained list), the local `active` flag
(whether any node was marked active), and the `watchRemoved` calls made. -/
structure Phase1Result where
  ws : WMap
  retained : List Nat
  anyActive : Bool
  calls : List Call

/-- The phase-1 traversal of `processEvents`, translated statement by
statement.  `chain` is the rest of the original detached list (the loop
variable `q` walks the original `next` links, which the loop never
modifies); `pq` is the current value of the local `pqueue`.  In the source,
`prev` is initialised to `nullptr` and never assigned afterwards, so the
excision branch for a `deleteme` node always executes
`pqueue = q->next`. -/
def phase1Go (ws : WMap) (chain : List Nat) (pq : List Nat)
    (anyActive : Bool) (calls : List Call) : Phase1Result :=
  match chain with
  | [] => ⟨ws, pq, anyActive, calls⟩
  | q :: rest =>
    if (ws q).deleteme then
      -- q->watchRemoved(); prev is nullptr, so: pqueue = q->next
      phase1Go ws rest rest anyActive (calls ++ [Call.watchRemoved q])
    else
      -- q->active = true; active = true
      phase1Go (wupdate ws q { ws q with active := true }) rest pq true calls

/-- Phase 1 of `processEvents`: detach the whole pending list
(`pqueue = ed.first; ed.first = nullptr`) and run the traversal. -/
def processPhase1 (ws : WMap) (pending : List Nat) : Phase1Result :=
  phase1Go ws pending pending false []

/-- `EventLoop::processSignalRearm` (part_000 lines 493-502): backend calls
for a signal watcher, selected by the rearm value. -/
def processSignalRearm (w : Watcher) (r : Rearm) : List Call :=
  match r with
  | Rearm.REARM => [Call.rearmSignalWatch w.signo]
  | Rearm.REMOVE => [Call.removeSignalWatch w.signo]
  | Rearm.DISARM => []

/-- `EventLoop::processFdRearm` (part_000 lines 504-513): backend calls for
an fd watcher, selected by the rearm value; REARM re-enables with the
stored `watch_flags`. -/
def processFdRearm (q : Nat) (w : Watcher) (r : Rearm) : List Call :=
  match r with
  | Rearm.REARM => [Call.enableFdWatch w.watch_fd q w.watch_flags]
  | Rearm.REMOVE => [Call.removeFdWatch w.watch_fd]
  | Rearm.DISARM => []

/-- One iteration of the dispatch loop of `processEvents` (part_000 lines
546-599) for the node `q`: invoke the handler by tag (child watchers force
`rearmType = REMOVE`), then under the dispatch lock clear `active`,
override the rearm value to REMOVE when `deleteme` is set, apply the
`_nolock` backend operation by tag (no backend call for CHILD), and call
`watchRemoved` when the final rearm value is REMOVE. -/
def dispatchOne (env : DispatchEnv) (ws : WMap) (q : Nat) : WMap × List Call :=
  let w := ws q
  let rearm0 : Rearm :=
    match w.watchType with
    | WatchType.CHILD => Rearm.REMOVE
    | _ => env.hres q
  -- deleteme may be raised during the handler (the watcher is active)
  let w1 := { w with deleteme := w.deleteme || env.delDuring q }
  -- ed.lock.lock(); pqueue->active = false
  let w2 := { w1 with active := false }
  let rearm := if w2.deleteme then Rearm.REMOVE else rearm0
  let backendCalls : List Call :=
    match w2.watchType with
    | WatchType.SIGNAL => processSignalRearm w2 rearm
    | WatchType.FD => processFdRearm q w2 rearm
    | WatchType.CHILD => []
  let removedCalls : List Call :=
    if rearm = Rearm.REMOVE then [Call.watchRemoved q] else []
  (wupdate ws q w2, Call.handler q :: (backendCalls ++ removedCalls))

/-- The dispatch loop of `processEvents`: process the retained list front to
back (the loop advances with `pqueue = pqueue->next`). -/
def phase2 (env : DispatchEnv) (ws : WMap) : List Nat → WMap × List Call
  | [] => (ws, [])
  | q :: rest =>
    let s1 := dispatchOne env ws q
    let s2 := phase2 env s1.1 rest
    (s2.1, s1.2 ++ s2.2)

/-- Result of a full `processEvents` pass: final watcher map, the returned
`active` flag, and the trace of calls. -/
structure PEResult where
  ws : WMap
  anyActive : Bool
  calls : List Call

/-- `EventLoop::processEvents` (part_000 lines 515-602): phase 1 under the
dispatch lock, then the dispatch loop, returning the `active` flag computed
in phase 1.  The pending list is left empty (it was detached). -/
def processEvents (env : DispatchEnv) (ws : WMap) (pending : List Nat) : PEResult :=
  let p1 := processPhase1 ws pending
  let s2 := phase2 env p1.ws p1.retained
  ⟨s2.1, p1.anyActive, p1.calls ++ s2.2⟩

/-- `EventDispatch::receiveFdEvent` (part_000 lines 276-289): store the
event flags, set `active`, and prepend the watcher to the pending list
(`first = bwatcher; bwatcher->next = prev_first`).  `receiveSignal` and
`receiveChildStat` perform the same queue manipulation with their own
payload fields. -/
def receiveFdEvent (ws : WMap) (pending : List Nat) (q : Nat) (flags : Nat) :
    WMap × List Nat :=
  (wupdate ws q { ws q with event_flags := flags, active := true }, q :: pending)

/-- `EventDispatch::issueDelete` (part_000 lines 317-335): under the
dispatch lock, if the watcher is active set `deleteme`; otherwise call
`watchRemoved` immediately. -/
def issueDelete (ws : WMap) (w : Nat) : WMap × List Call :=
  if (ws w).active then
    (wupdate ws w { ws w with deleteme := true }, [])
  else
    (ws, [Call.watchRemoved w])

/-- `EventLoop::run` (part_000 lines 606-621): `while (!processEvents())`
poll the backend and loop.  `polls` scripts the batches of watcher
identifiers the backend delivers (via `receive*`, which prepends) on each
`pullEvents` call; `fuel` bounds the number of iterations modelled.  The
result is `some n` when `run` returns after `n` calls to `processEvents`,
and `none` when the modelled execution does not return within `fuel`
iterations (or blocks in `pullEvents` with no scripted events left). -/
def runLoop (env : DispatchEnv) : Nat → WMap → List Nat → List (List Nat) → Nat → Option Nat
  | 0, _, _, _, _ => none
  | fuel + 1, ws, pending, polls, n =>
    let r := processEvents env ws pending
    if r.anyActive then
      -- processEvents() returned true: the while condition fails, run returns
      some (n + 1)
    else
      match polls with
      | [] => none
      | batch :: rest =>
        let s2 := batch.foldl
          (fun (acc : WMap × List Nat) q => receiveFdEvent acc.1 acc.2 q 0)
          (r.ws, [])
        runLoop env fuel s2.1 s2.2 rest (n + 1)

/-- `BaseWatcher::watchRemoved` default implementation (part_000 lines
103-107): the body is empty (the `delete this` is commented out), so the
heap of watcher storage is returned unchanged: nothing is freed and no
watcher field is modified. -/
def heapWatchRemovedDefault (h : Nat → Option Watcher) (_i : Nat) :
    Nat → Option Watcher :=
  h

/-!
The wait queue of `dprivate::waitqueue` (part_000 lines 212-238).  Wait
nodes are identified by natural numbers; each node carries a `next`
pointer (`waitqueue_node::next`, initialised to `nullptr`), and the queue
carries `head` and `tail` pointers (both initialised to `nullptr`).
-/

/-- State of a `waitqueue` together with the `next` fields of all wait
nodes. -/
structure WQ where
  next : Nat → Option Nat
  head : Option Nat
  tail : Option Nat

/-- A fresh `waitqueue` with all nodes fresh: every pointer is null. -/
def emptyWQ : WQ :=
  ⟨fun _ => none, none, none⟩

/-- `waitqueue::queue(node)` (part_000 lines 229-237): if `tail` is
non-null set `tail->next = node`, otherwise set `head = node`.  The source
assigns neither `tail` nor anything else. -/
def wqQueue (s : WQ) (n : Nat) : WQ :=
  match s.tail with
  | some t => { s with next := fun j => if j = t then some n else s.next j }
  | none => { s with head := some n }

/-- `waitqueue::unqueue()` (part_000 lines 218-222): `head = head->next;
return head`.  When `head` is null the source dereferences a null pointer;
that is modelled as `none`. -/
def wqUnqueue (s : WQ) : Option (WQ × Option Nat) :=
  match s.head with
  | none => none
  | some h =>
    let nh := s.next h
    some ({ s with head := nh }, nh)

/-- `waitqueue::getHead()` (part_000 lines 224-227). -/
def wqGetHead (s : WQ) : Option Nat :=
  s.head

/-!
The pselect backend `select_events` (src/dasynq-select.h).  File
descriptors and signal numbers are natural numbers; fd sets are lists used
as sets; the `rd_udata` / `wr_udata` vectors are lists of optional
userdata identifiers; `sig_userdata` is the per-signal userdata array and
`active_sigmask` the mask of unwatched signals (`true` = masked out, i.e.
not watched).
-/

/-- State of a `select_events` backend instance. -/
structure SelectState where
  read_set : List Nat
  write_set : List Nat
  max_fd : Nat
  sig_userdata : Nat → Option Nat
  active_sigmask : Nat → Bool
  rd_udata : List (Option Nat)
  wr_udata : List (Option Nat)

/-- A call to one of the dispatch-queue `receive_*` methods: which method
with which source. -/
inductive RKind where
  | rsig (signo : Nat)
  | rfdIn (fd : Nat)
  | rfdOut (fd : Nat)
  deriving DecidableEq

/-- One `receive_*` call, tagged with whether `Base::lock` (the dispatch
lock) is held at the moment of the call. -/
structure RCall where
  kind : RKind
  lockHeld : Bool
  deriving DecidableEq

/-- `FD_SET`: add a descriptor to an fd set. -/
def fdsetInsert (fd : Nat) (l : List Nat) : List Nat :=
  if fd ∈ l then l else fd :: l

/-- `FD_CLR`: remove a descriptor from an fd set. -/
def fdsetClear (fd : Nat) (l : List Nat) : List Nat :=
  l.filter (fun x => x ≠ fd)

/-- `std::vector::resize(n)`: extend with null userdata entries. -/
def resizeTo (v : List (Option Nat)) (n : Nat) : List (Option Nat) :=
  v ++ List.replicate (n - v.length) none

/-- `select_events::process_events` (dasynq-select.h lines 155-178): under
a `std::lock_guard` on `Base::lock`, scan descriptors `0..max_fd`; for
each fd set in the returned read set (or error set) call
`receive_fd_event(..., IN_EVENTS)` and clear it from `read_set`; then the
same for the write set.  Every `receive_fd_event` call here carries
`lockHeld = true`. -/
def selectProcessEvents (st : SelectState)
    (readRes writeRes errRes : List Nat) : SelectState × List RCall :=
  let idxs := List.range (st.max_fd + 1)
  let stepR := idxs.foldl
    (fun (acc : SelectState × List RCall) i =>
      if i ∈ readRes ∨ i ∈ errRes then
        ({ acc.1 with read_set := fdsetClear i acc.1.read_set },
         acc.2 ++ [⟨RKind.rfdIn i, true⟩])
      else acc)
    (st, [])
  let stepW := idxs.foldl
    (fun (acc : SelectState × List RCall) i =>
      if i ∈ writeRes ∨ i ∈ errRes then
        ({ acc.1 with write_set := fdsetClear i acc.1.write_set },
         acc.2 ++ [⟨RKind.rfdOut i, true⟩])
      else acc)
    stepR
  stepW

/-- `select_events::pull_events` (dasynq-select.h lines 369-420).
`sigDelivered` is the signal (if any) captured during polling via the
`sigsetjmp`/`siglongjmp` path; `sigHandled s` is the boolean returned by
`Base::receive_signal`.  In that path the source takes no lock before
calling `receive_signal`, so the call is recorded with `lockHeld = false`.
`readyRead`/`readyWrite`/`readyErr` script which of the watched
descriptors `pselect` reports ready; `pselect`'s result sets are the
intersections with the watched sets restricted to `0..max_fd`.  If no
descriptor is ready (`r == -1 || r == 0`) the function returns without
touching the fd machinery; otherwise it runs `process_events` on the
result sets. -/
def pullEvents (st : SelectState) (sigDelivered : Option Nat)
    (sigHandled : Nat → Bool) (readyRead readyWrite readyErr : List Nat) :
    SelectState × List RCall :=
  -- signal capture path (runs after siglongjmp, before any locking)
  let sigStep : SelectState × List RCall :=
    match sigDelivered with
    | none => (st, [])
    | some s =>
      match st.sig_userdata s with
      | none => (st, [])
      | some _ =>
        let st1 :=
          if sigHandled s then
            { st with active_sigmask := fun j => if j = s then true else st.active_sigmask j }
          else st
        (st1, [⟨RKind.rsig s, false⟩])
  let st1 := sigStep.1
  let readRes := st1.read_set.filter (fun f => f ≤ st1.max_fd ∧ f ∈ readyRead)
  let writeRes := st1.write_set.filter (fun f => f ≤ st1.max_fd ∧ f ∈ readyWrite)
  let errRes := readyErr.filter
    (fun f => f ≤ st1.max_fd ∧ (f ∈ st1.read_set ∨ f ∈ st1.write_set))
  if readRes = [] ∧ writeRes = [] ∧ errRes = [] then
    sigStep
  else
    let pe := selectProcessEvents st1 readRes writeRes errRes
    (pe.1, sigStep.2 ++ pe.2)

/-- `select_events::add_fd_watch` (dasynq-select.h lines 207-227),
translated statement by statement.  `flagIn` is `flags & IN_EVENTS`;
`allocOk` scripts whether the `std::vector::resize` allocation succeeds.
The source performs `FD_SET` first, then grows the userdata vector, then
stores the userdata, then updates `max_fd` and returns `true`; an
allocation failure in `resize` raises `std::bad_alloc`, leaving the
mutations already performed in place — that thrown-at state is carried by
`Except.error`. -/
def add_fd_watch (st : SelectState) (fd udata : Nat) (flagIn allocOk : Bool) :
    Except SelectState (SelectState × Bool) :=
  if flagIn then
    let st1 := { st with read_set := fdsetInsert fd st.read_set }
    if st1.rd_udata.length ≤ fd then
      if allocOk then
        let st2 := { st1 with rd_udata := (resizeTo st1.rd_udata (fd + 1)).set fd (some udata) }
        Except.ok ({ st2 with max_fd := max fd st2.max_fd }, true)
      else
        Except.error st1
    else
      let st2 := { st1 with rd_udata := st1.rd_udata.set fd (some udata) }
      Except.ok ({ st2 with max_fd := max fd st2.max_fd }, true)
  else
    let st1 := { st with write_set := fdsetInsert fd st.write_set }
    if st1.wr_udata.length ≤ fd then
      if allocOk then
        let st2 := { st1 with wr_udata := (resizeTo st1.wr_udata (fd + 1)).set fd (some udata) }
        Except.ok ({ st2 with max_fd := max fd st2.max_fd }, true)
      else
        Except.error st1
    else
      let st2 := { st1 with wr_udata := st1.wr_udata.set fd (some udata) }
      Except.ok ({ st2 with max_fd := max fd st2.max_fd }, true)

/-- Whether an `add_fd_watch` outcome is a failure (a raised exception). -/
def addFdFailed (e : Except SelectState (SelectState × Bool)) : Bool :=
  match e with
  | Except.error _ => true
  | Except.ok _ => false

/-- The backend state at the point a failed `add_fd_watch` raised, with a
default for the success case. -/
def addFdErrState (e : Except SelectState (SelectState × Bool))
    (d : SelectState) : SelectState :=
  match e with
  | Except.error s => s
  | Except.ok _ => d

/-! Concrete states used to evaluate the embedded code. -/

/-- A freshly constructed fd watcher: flags clear, no payload. -/
def defaultFdWatcher : Watcher :=
  ⟨WatchType.FD, false, false, 0, 0, 0, 0, 0⟩

/-- A dispatch environment where every handler returns REARM and no
concurrent `issueDelete` occurs. -/
def envDefault : DispatchEnv :=
  ⟨fun _ => Rearm.REARM, fun _ => false⟩

/-- Initial watcher map: every identifier is a fresh fd watcher. -/
def wsInit : WMap :=
  fun _ => defaultFdWatcher

/-- One fd event received for watcher 0: it is queued and active. -/
def c1Recv : WMap × List Nat :=
  receiveFdEvent wsInit [] 0 0

/-- Two queued (hence active) watchers, of which watcher 1 has `deleteme`
set (the state produced by `receiveFdEvent` twice and `issueDelete 1`). -/
def c2ws : WMap :=
  fun i =>
    if i = 1 then { defaultFdWatcher with active := true, deleteme := true }
    else { defaultFdWatcher with active := true }

/-- The waitqueue after `queue(node 0); queue(node 1)` from empty. -/
def c3q : WQ :=
  wqQueue (wqQueue emptyWQ 0) 1

/-- A select backend watching signal 5 (userdata 7) and nothing else. -/
def c4st : SelectState :=
  ⟨[], [], 0, (fun s => if s = 5 then some 7 else none),
   (fun s => if s = 5 then false else true), [], []⟩

/-- Step 1 of the C5 scenario: watcher 1 receives an fd event. -/
def c5s1 : WMap × List Nat :=
  receiveFdEvent wsInit [] 1 0

/-- Step 2: watcher 0 receives an fd event; the pending list is [0, 1]. -/
def c5s2 : WMap × List Nat :=
  receiveFdEvent c5s1.1 c5s1.2 0 0

/-- Step 3: the user deregisters watcher 1; it is active (queued), so
`issueDelete` sets its `deleteme` flag. -/
def c5s3 : WMap × List Call :=
  issueDelete c5s2.1 1

/-- Step 4: the first `processEvents` pass over the pending list [0, 1]. -/
def c5p1 : PEResult :=
  processEvents envDefault c5s3.1 c5s2.2

/-- Step 5: the user deregisters watcher 0; its `active` flag is still set
(the first pass dropped it from the retained list without dispatching it),
so `issueDelete` merely sets `deleteme`. -/
def c5s5 : WMap × List Call :=
  issueDelete c5p1.ws 0

/-- Step 6: the next `processEvents` pass; the pending list is empty. -/
def c5p2 : PEResult :=
  processEvents envDefault c5s5.1 []

/-- An installed fd watcher map: fd 3, armed flags 5, currently queued. -/
def wsFd : WMap :=
  fun _ => { defaultFdWatcher with active := true, watch_fd := 3, watch_flags := 5 }

/-- A queued child watcher map. -/
def wsChild : WMap :=
  fun _ => ⟨WatchType.CHILD, true, false, 0, 0, 0, 0, 9⟩

/-- A watcher map whose watchers are all active. -/
def wsActive : WMap :=
  fun _ => { defaultFdWatcher with active := true }

/-- An empty select backend. -/
def selSt0 : SelectState :=
  ⟨[], [], 0, (fun _ => none), (fun _ => true), [], []⟩

/-- The state `add_fd_watch selSt0 0 7 true false` has mutated when the
resize allocation fails: fd 0 already sits in the read set. -/
def selStErr : SelectState :=
  { selSt0 with read_set := [0] }

end Dasynq

namespace Dasynq

/-- C1 counterexample: `run` is not an endless loop.  With one queued fd
watcher and no backend events scripted, `processEvents` reports activity on
its first call (and its trace shows the handler of watcher 0 ran), so the
`while (!processEvents())` condition fails and `run` returns after exactly
one `processEvents` call instead of looping back. -/
theorem run_terminates_after_active_pass :
    runLoop envDefault 5 c1Recv.1 c1Recv.2 [] 0 = some 1 ∧
      Call.handler 0 ∈ (processEvents envDefault c1Recv.1 c1Recv.2).calls := by
  constructor
  · rfl
  · decide

/-- C1 (amended): `run` loops (acquiring the poll lock and pulling backend
events) only while `processEvents` reports no handler invocation; as soon
as a pass reports at least one, `run` returns immediately after that
pass. -/
theorem run_returns_when_events_processed (env : DispatchEnv) (fuel : Nat)
    (ws : WMap) (pending : List Nat) (polls : List (List Nat)) (n : Nat)
    (h : (processEvents env ws pending).anyActive = true) :
    runLoop env (fuel + 1) ws pending polls n = some (n + 1) := by
  simp [runLoop, h]

/-- Witness: the amended C1 claim at the concrete one-watcher state. -/
theorem run_returns_when_events_processed_witness :
    runLoop envDefault 1 c1Recv.1 c1Recv.2 [] 0 = some 1 :=
  run_returns_when_events_processed envDefault 0 c1Recv.1 c1Recv.2 [] 0 (by decide)

/-- C2: the first phase of `processEvents` loses live nodes.  On the
pending list [0, 1] where only watcher 1 has `deleteme` set, the excision
of node 1 executes `pqueue = q->next` (the `prev` pointer is never
advanced), so the retained list comes out empty: watcher 0, whose
`deleteme` flag is clear, is dropped instead of being retained. -/
theorem phase1_drops_live_node :
    (processPhase1 c2ws [0, 1]).retained = [] ∧
      (c2ws 0).deleteme = false ∧
      (processPhase1 c2ws [0, 1]).calls = [Call.watchRemoved 1] ∧
      (processPhase1 c2ws [0, 1]).anyActive = true := by
  decide

/-- C3: the waitqueue is not FIFO and loses nodes.  `queue` never assigns
`tail`, so `tail` stays null and the second `queue` call overwrites `head`:
after `queue(0); queue(1)` the head is node 1, no `next` link points to
node 0, and the next `unqueue` yields an empty queue — node 0 never reaches
the head. -/
theorem waitqueue_loses_node :
    c3q.head = some 1 ∧ c3q.tail = none ∧
      c3q.next 0 = none ∧ c3q.next 1 = none ∧
      (wqUnqueue c3q).map (fun p => p.2) = some none := by
  decide

/-- C4: `pull_events` calls `receive_signal` without the dispatch lock.
With signal 5 watched and delivered during polling (the
`sigsetjmp`/`siglongjmp` capture path) and no descriptor ready, the trace
of `pull_events` is a single `receive_signal` call made with `Base::lock`
not held — contradicting the requirement (and the code's own comment) that
every `receive_*` call happens under that lock. -/
theorem pull_events_signal_without_lock :
    (pullEvents c4st (some 5) (fun _ => true) [] [] []).2 =
      [⟨RKind.rsig 5, false⟩] := by
  decide

/-- C5: a watcher whose `deleteme` flag is set can miss its `watchRemoved`
call forever.  Watchers 0 and 1 are queued; `issueDelete 1` sets
`deleteme` on 1; the first `processEvents` pass excises 1 but also drops 0
from the retained list (the phase-1 `prev` slip), leaving 0 active though
unreachable; `issueDelete 0` then sets `deleteme` on 0; yet the next
`processEvents` pass makes no call at all — in particular `watchRemoved 0`
is never invoked, neither in that pass nor in the first. -/
theorem deleted_watcher_never_removed :
    (c5s5.1 0).deleteme = true ∧ (c5s5.1 0).active = true ∧
      c5s5.2 = [] ∧ c5p2.calls = [] ∧
      c5p1.calls.count (Call.watchRemoved 0) = 0 := by
  decide

/-- C6: the rearm law for fd watchers in the post-handler phase of
`processEvents`, for a watcher not concurrently deregistered: a handler
return of REARM re-enables the backend registration via
`enableFdWatch_nolock` with the stored `watch_flags`; DISARM makes no
backend call and no `watchRemoved` call; REMOVE calls
`removeFdWatch_nolock` and then `watchRemoved`. -/
theorem fd_rearm_law (env : DispatchEnv) (ws : WMap) (q : Nat)
    (hty : (ws q).watchType = WatchType.FD)
    (hdel : (ws q).deleteme = false)
    (hdd : env.delDuring q = false) :
    (env.hres q = Rearm.REARM →
      (dispatchOne env ws q).2 =
        [Call.handler q, Call.enableFdWatch (ws q).watch_fd q (ws q).watch_flags]) ∧
    (env.hres q = Rearm.DISARM →
      (dispatchOne env ws q).2 = [Call.handler q]) ∧
    (env.hres q = Rearm.REMOVE →
      (dispatchOne env ws q).2 =
        [Call.handler q, Call.removeFdWatch (ws q).watch_fd, Call.watchRemoved q]) := by
  refine ⟨?_, ?_, ?_⟩ <;> intro h <;>
    simp [dispatchOne, processFdRearm, hty, hdel, hdd, h]

/-- Witness: the C6 rearm law at a concrete fd watcher (fd 3, flags 5). -/
theorem fd_rearm_law_witness :
    (envDefault.hres 0 = Rearm.REARM →
      (dispatchOne envDefault wsFd 0).2 =
        [Call.handler 0, Call.enableFdWatch (wsFd 0).watch_fd 0 (wsFd 0).watch_flags]) ∧
    (envDefault.hres 0 = Rearm.DISARM →
      (dispatchOne envDefault wsFd 0).2 = [Call.handler 0]) ∧
    (envDefault.hres 0 = Rearm.REMOVE →
      (dispatchOne envDefault wsFd 0).2 =
        [Call.handler 0, Call.removeFdWatch (wsFd 0).watch_fd, Call.watchRemoved 0]) :=
  fd_rearm_law envDefault wsFd 0 rfl rfl rfl

/-- C7: a dispatched child watcher is implicitly removed.  Whatever the
environment (handler behaviour and concurrent `issueDelete`), dispatching
a child watcher produces exactly the trace `gotTermStat` then
`watchRemoved`: the rearm value is forced to REMOVE, no backend rearm call
is made, and `watchRemoved` runs exactly once, immediately after the sole
handler call. -/
theorem child_implicit_remove (env : DispatchEnv) (ws : WMap) (q : Nat)
    (hty : (ws q).watchType = WatchType.CHILD) :
    (dispatchOne env ws q).2 = [Call.handler q, Call.watchRemoved q] := by
  cases h2 : (ws q).deleteme <;> cases h3 : env.delDuring q <;>
    simp [dispatchOne, hty, h2, h3]

/-- Witness: the C7 property at a concrete child watcher. -/
theorem child_implicit_remove_witness :
    (dispatchOne envDefault wsChild 0).2 = [Call.handler 0, Call.watchRemoved 0] :=
  child_implicit_remove envDefault wsChild 0 rfl

/-- C8: `issueDelete` on an active watcher sets `deleteme` and makes no
call; on an inactive watcher it calls `watchRemoved` immediately and
leaves the watcher map unchanged; and it never calls `watchRemoved` on a
watcher whose `active` flag is set. -/
theorem issueDelete_spec (ws : WMap) (w : Nat) :
    ((ws w).active = true →
      (issueDelete ws w).2 = [] ∧ ((issueDelete ws w).1 w).deleteme = true) ∧
    ((ws w).active = false →
      (issueDelete ws w).2 = [Call.watchRemoved w] ∧ (issueDelete ws w).1 = ws) ∧
    (Call.watchRemoved w ∈ (issueDelete ws w).2 → (ws w).active = false) := by
  cases h : (ws w).active <;> simp [issueDelete, h, wupdate]

/-- Witness: the C8 property on an active watcher. -/
theorem issueDelete_spec_witness :
    (issueDelete wsActive 0).2 = [] ∧
      ((issueDelete wsActive 0).1 0).deleteme = true := by
  have h := issueDelete_spec wsActive 0
  exact h.1 rfl

/-- C9 counterexample: a failing `add_fd_watch` leaves partial state.  On
an empty backend, registering fd 0 for input with the userdata-vector
resize failing raises the failure, but at the point of the raise fd 0 has
already been added to `read_set` (the source performs `FD_SET` before the
`resize`), so the backend watch state is not left unchanged. -/
theorem add_fd_watch_mutates_before_failure :
    addFdFailed (add_fd_watch selSt0 0 7 true false) = true ∧
      (addFdErrState (add_fd_watch selSt0 0 7 true false) selSt0).read_set = [0] ∧
      selSt0.read_set = [] := by
  decide

/-- C9 (amended): when `add_fd_watch` fails, the userdata tables, `max_fd`
and the signal state are unchanged, but the registered fd has already been
inserted into the fd set selected by the flags — that single fd-set bit is
the only partial state left. -/
theorem add_fd_watch_failure_frame (st : SelectState) (fd udata : Nat)
    (fIn aOk : Bool) (e : SelectState)
    (h : add_fd_watch st fd udata fIn aOk = Except.error e) :
    e.rd_udata = st.rd_udata ∧ e.wr_udata = st.wr_udata ∧
      e.max_fd = st.max_fd ∧ e.sig_userdata = st.sig_userdata ∧
      e.active_sigmask = st.active_sigmask ∧
      (fIn = true →
        e.read_set = fdsetInsert fd st.read_set ∧ e.write_set = st.write_set) ∧
      (fIn = false →
        e.write_set = fdsetInsert fd st.write_set ∧ e.read_set = st.read_set) := by
  simp only [add_fd_watch] at h
  split at h
  · split at h
    · split at h
      · simp at h
      · rw [Except.error.injEq] at h
        subst h
        simp_all
    · simp at h
  · split at h
    · split at h
      · simp at h
      · rw [Except.error.injEq] at h
        subst h
        simp_all
    · simp at h

/-- Witness: the amended C9 claim at the concrete failing registration of
fd 0 on the empty backend. -/
theorem add_fd_watch_failure_frame_witness :
    selStErr.rd_udata = selSt0.rd_udata ∧ selStErr.wr_udata = selSt0.wr_udata ∧
      selStErr.max_fd = selSt0.max_fd ∧
      selStErr.sig_userdata = selSt0.sig_userdata ∧
      selStErr.active_sigmask = selSt0.active_sigmask ∧
      (true = true →
        selStErr.read_set = fdsetInsert 0 selSt0.read_set ∧
          selStErr.write_set = selSt0.write_set) ∧
      (true = false →
        selStErr.write_set = fdsetInsert 0 selSt0.write_set ∧
          selStErr.read_set = selSt0.read_set) :=
  add_fd_watch_failure_frame selSt0 0 7 true false selStErr rfl

/-- C10: the default `watchRemoved` implementation is a no-op: with the
base-class implementation, removing a watcher neither frees nor modifies
any watcher storage — the heap of watcher storage is returned exactly as
it was, so deallocation is entirely the user's responsibility. -/
theorem watchRemoved_default_noop (h : Nat → Option Watcher) (i : Nat) :
    heapWatchRemovedDefault h i = h :=
  rfl

end Dasynq
